import Mathlib

/-!
Shallow embedding of the GD32CAN driver (GD32CAN.h / GD32CAN.cpp): the CAN
message and ring-buffer data model, the ring-buffer free functions, the
message codec, the bit-timing solver, the TX/RX interrupt handlers, the
filter-bank guard logic and the instance-ownership lifecycle, together with
theorems settling the specification claims about them.

Machine integers are modelled as `Nat` with explicit wrap (`% 2^32`, `% 2^8`)
where the C code can overflow or underflow.  Unsigned division and modulus by
zero follow the Cortex-M target semantics (`UDIV` yields 0, hence `x % 0 = x`),
which coincides with Lean's `Nat` semantics.  Hardware outcomes that depend on
peripheral state (mailbox availability, `can_init` success) are oracle
parameters.  The embedding targets the `GD32F30X_CL` build configuration
(`HAS_CAN0` and `HAS_CAN1` defined, `MAX_BANK = 27`).
-/

set_option autoImplicit false

/-! ### Data model (GD32CAN.h) -/

/-- Maximum Data Length Code, `CAN::MAX_DLC` (8 bytes for Classic CAN). -/
def MAX_DLC : Nat := 8

/-- One CAN frame, `CAN::message_t`. -/
structure message_t where
  id : Nat
  idType : Nat
  frameType : Nat
  dataLen : Nat
  data : Fin 8 → Nat

instance : DecidableEq message_t := fun a b =>
  decidable_of_iff
    (a.id = b.id ∧ a.idType = b.idType ∧ a.frameType = b.frameType ∧
      a.dataLen = b.dataLen ∧ a.data = b.data)
    (by cases a; cases b; simp)

/-- An all-zero message (the `message_t` default member initializers). -/
def zeroMessage : message_t :=
  { id := 0, idType := 0, frameType := 0, dataLen := 0, data := fun _ => 0 }

/-- Circular buffer of messages, `CAN::ringBuffer_t`.  The C struct stores a
pointer to the storage array; `buffer` is the storage as a total map and
`bufferNull` records whether the pointer is null (unallocated ring). -/
structure ringBuffer_t where
  head : Nat
  tail : Nat
  size : Nat
  bufferNull : Bool
  buffer : Nat → message_t

/-- `initRingBuffer`: set the storage pointer and size, reset head and tail. -/
def initRingBuffer (buffer : Nat → message_t) (bufferNull : Bool) (size : Nat) :
    ringBuffer_t :=
  { head := 0, tail := 0, size := size, bufferNull := bufferNull, buffer := buffer }

/-- `isRingBufferEmpty`: the ring is empty iff `head == tail`. -/
def isRingBufferEmpty (ring : ringBuffer_t) : Bool :=
  ring.head == ring.tail

/-- `isRingBufferFull`: the ring is full iff `(head + 1) % size == tail`.
For `size = 0` the C code takes a modulus by zero (UB in C; on the Cortex-M
target, and in `Nat`, `x % 0 = x`). -/
def isRingBufferFull (ring : ringBuffer_t) : Bool :=
  (ring.head + 1) % ring.size == ring.tail

/-- `ringBufferCount`: `entries = (int32)head - (int32)tail`, plus `size` when
negative. -/
def ringBufferCount (ring : ringBuffer_t) : Nat :=
  if ring.head < ring.tail then ring.head + ring.size - ring.tail
  else ring.head - ring.tail

/-- `addToRingBuffer`: succeeds iff `(head + 1) % size != tail`; on success the
message is stored at `head` (the C `memcpy` through the buffer pointer) and
`head` advances.  Returns the updated ring and the `bool` result. -/
def addToRingBuffer (ring : ringBuffer_t) (message : message_t) :
    ringBuffer_t × Bool :=
  let nextEntry := (ring.head + 1) % ring.size
  if nextEntry = ring.tail then (ring, false)
  else
    ({ ring with
        buffer := Function.update ring.buffer ring.head message
        head := nextEntry }, true)

/-- `readFromRingBuffer`: peek at the tail element without removing it;
`none` models the `false` return on an empty ring. -/
def readFromRingBuffer (ring : ringBuffer_t) : Option message_t :=
  if isRingBufferEmpty ring then none else some (ring.buffer ring.tail)

/-- `removeFromRingBuffer`: advance `tail` by one (mod `size`) unless empty. -/
def removeFromRingBuffer (ring : ringBuffer_t) : ringBuffer_t :=
  if isRingBufferEmpty ring then ring
  else { ring with tail := (ring.tail + 1) % ring.size }

/-! ### 32-bit helper arithmetic -/

/-- Two to the 32nd, the modulus of `uint32_t` arithmetic. -/
def U32 : Nat := 4294967296

/-- Unsigned 32-bit subtraction with wrap-around. -/
def u32sub (a b : Nat) : Nat :=
  (a % U32 + U32 - b % U32) % U32

/-- Reinterpret a `uint32_t` value as `int32_t` (the C cast in the solver's
sample-point comparison). -/
def i32cast (n : Nat) : Int :=
  if n % U32 < 2147483648 then ((n % U32 : Nat) : Int)
  else ((n % U32 : Nat) : Int) - (U32 : Int)

/-! ### Bit-timing solver (`GD32CAN::calculateCANBTValues`) -/

/-- `HW_MAX_BAUDRATE`: the hardware supports at most 1 Mbit/s. -/
def HW_MAX_BAUDRATE : Nat := 1000000

/-- The solver's fixed-point scale (`MULTIPLIER`). -/
def MULTIPLIER : Nat := 1000000

/-- `PERCENT_POINT`: the 87.5% sample-point target, scaled by `MULTIPLIER`
(`(uint32_t)(87.5 * MULTIPLIER) / 100`). -/
def PERCENT_POINT : Nat := 87500000 / 100

/-- `FREQ_MAX_DELTA`: the clock may be perturbed downward by at most 1000 Hz. -/
def FREQ_MAX_DELTA : Nat := 1000

/-- Vendor constant `CAN_BT_SJW_1TQ` (gd32f30x_can.h): resynchronisation jump
width field value for one time quantum. -/
def CAN_BT_SJW_1TQ : Nat := 0

/-- Inner search loop of the solver: walk `offset` from 0 while `8 >= offset`,
testing time-quantum counts `16 - offset` (and `16 + offset` while
`2 >= offset`) for exact divisibility of `clockFreq` by
`baudrate * timeQuanta`.  The first argument is the remaining iteration fuel
(9 iterations for offsets 0..8). -/
def findTimeQuantaAux (clockFreq baudrate : Nat) : Nat → Nat → Option Nat
  | 0, _ => none
  | fuel + 1, offset =>
    let quantaDown := clockFreq % (baudrate * (16 - offset)) == 0
    let quantaUp := (offset ≤ 2) && (clockFreq % (baudrate * (16 + offset)) == 0)
    if quantaDown then some (16 - offset)
    else if quantaUp then some (16 + offset)
    else findTimeQuantaAux clockFreq baudrate fuel (offset + 1)

/-- The inner loop entered at `offset = 0`. -/
def findTimeQuanta (clockFreq baudrate : Nat) : Option Nat :=
  findTimeQuantaAux clockFreq baudrate 9 0

/-- Outer search loop: while `freqDelta <= FREQ_MAX_DELTA` (1001 iterations)
try the inner search, then decrement `clockFreq` (with `uint32_t` wrap) and
increase `freqDelta`.  Returns the perturbed clock and the time-quantum count
on success. -/
def searchTimeQuantaAux (baudrate : Nat) : Nat → Nat → Option (Nat × Nat)
  | 0, _ => none
  | fuel + 1, clockFreq =>
    match findTimeQuanta clockFreq baudrate with
    | some t => some (clockFreq, t)
    | none => searchTimeQuantaAux baudrate fuel (if clockFreq = 0 then U32 - 1 else clockFreq - 1)

/-- The outer loop entered with `freqDelta = 0`. -/
def searchTimeQuanta (clockFreq baudrate : Nat) : Option (Nat × Nat) :=
  searchTimeQuantaAux baudrate (FREQ_MAX_DELTA + 1) clockFreq

/-- The out-parameters of `GD32CAN::calculateCANBTValues` together with its
`bool` result.  `baudpsc` is a `uint16_t`, `bs1`, `bs2` and `sjw` are
`uint8_t` register field values. -/
structure CANBTValues where
  result : Bool
  baudpsc : Nat
  bs1 : Nat
  bs2 : Nat
  sjw : Nat

/-- `GD32CAN::calculateCANBTValues`, parameterised by the peripheral clock
frequency (`rcu_clock_freq_get(CK_APB1)` on the hardware).  When the search
fails the C code still computes the out-parameters from `timeQuanta = 0`
(underflowing `tempBs1` and dividing by zero, which the Cortex-M target and
`Nat` both evaluate to the shown total values) and returns `false`; when
`baudrate` exceeds `HW_MAX_BAUDRATE` the out-parameters keep their
caller-initialised zeros. -/
def calculateCANBTValues (clockFreq0 baudrate : Nat) : CANBTValues :=
  if baudrate ≤ HW_MAX_BAUDRATE then
    let search := searchTimeQuanta clockFreq0 baudrate
    let result := search.isSome
    let clockFreq := match search with
      | some (cf, _) => cf
      | none => u32sub clockFreq0 (FREQ_MAX_DELTA + 1)
    let timeQuanta := match search with
      | some (_, t) => t
      | none => 0
    let tempBs1 := u32sub (PERCENT_POINT * timeQuanta) (1 * MULTIPLIER)
    let baudpsc := (clockFreq / (baudrate * timeQuanta)) % 65536
    let sjw := CAN_BT_SJW_1TQ
    let tempBs1 :=
      if tempBs1 / MULTIPLIER ≤ 0x0F then
        let samplePointA := ((1 * MULTIPLIER + tempBs1) % U32) / timeQuanta
        let samplePointB := ((2 * MULTIPLIER + tempBs1) % U32) / timeQuanta
        if (i32cast (u32sub samplePointB PERCENT_POINT)).natAbs <
            (i32cast (u32sub samplePointA PERCENT_POINT)).natAbs then
          (tempBs1 + MULTIPLIER) % U32
        else tempBs1
      else tempBs1
    let bs1 := u32sub (tempBs1 / MULTIPLIER) 1 % 256
    let bs2 := u32sub (u32sub timeQuanta bs1) 3 % 256
    { result := result, baudpsc := baudpsc, bs1 := bs1, bs2 := bs2, sjw := sjw }
  else
    { result := false, baudpsc := 0, bs1 := 0, bs2 := 0, sjw := 0 }

/-! ### Message codec (`canMessageTransmit`, `canMessageReceive`) -/

/-- Vendor constant `CAN_FF_STANDARD` (gd32f30x_can.h): standard frame format. -/
def CAN_FF_STANDARD : Nat := 0

/-- Vendor constant `CAN_FF_EXTENDED` (gd32f30x_can.h): extended frame format. -/
def CAN_FF_EXTENDED : Nat := 4

/-- The vendor transmit-mailbox descriptor `can_trasnmit_message_struct`
(field spelling as in the vendor header), zero-initialised by the codec. -/
structure can_trasnmit_message_struct where
  tx_sfid : Nat
  tx_efid : Nat
  tx_ff : Nat
  tx_ft : Nat
  tx_dlen : Nat
  tx_data : Fin 8 → Nat

/-- `canMessageTransmit`: build the hardware mailbox descriptor from a
`message_t` and hand it to the vendor `can_message_transmit`.  The data length
written to hardware is clamped to `MAX_DLC`.  `hwMailboxFree` is the oracle
for the vendor call's outcome (`CAN_NOMAILBOX` when all three mailboxes are
busy); the function returns the descriptor it wrote together with the `bool`
result. -/
def canMessageTransmit (message : message_t) (hwMailboxFree : Bool) :
    can_trasnmit_message_struct × Bool :=
  let tempMessage0 : can_trasnmit_message_struct :=
    { tx_sfid := 0, tx_efid := 0, tx_ff := 0, tx_ft := 0, tx_dlen := 0,
      tx_data := fun _ => 0 }
  let tempMessage1 :=
    if message.idType = CAN_FF_EXTENDED then { tempMessage0 with tx_efid := message.id }
    else { tempMessage0 with tx_sfid := message.id }
  let tempMessage :=
    { tempMessage1 with
        tx_ff := message.idType
        tx_ft := message.frameType
        tx_dlen := if message.dataLen ≤ MAX_DLC then message.dataLen else MAX_DLC
        tx_data := fun idx => message.data idx }
  (tempMessage, hwMailboxFree)

/-- `canMessageReceive`: decode one frame from the hardware FIFO registers.
`rfifomi` and `rfifomp` are the raw `CAN_RFIFOMI` / `CAN_RFIFOMP` register
values and `dataBytes` the payload bytes read from `CAN_RFIFOMDATA0/1`; the
vendor field macros extract `FT` (bit 1), `FF` (bit 2), `SFID` (bits 21..31),
`EFID` (bits 3..31) and `DLENC` (bits 0..3).  The decoded `dataLen` is clamped
to `MAX_DLC`. -/
def canMessageReceive (rfifomi rfifomp : Nat) (dataBytes : Fin 8 → Nat) :
    message_t :=
  let frameType := rfifomi &&& 2
  let idType := rfifomi &&& 4
  let id := if idType = CAN_FF_STANDARD then (rfifomi >>> 21) % 2048
            else (rfifomi >>> 3) % 536870912
  let dlen := rfifomp &&& 15
  { id := id, idType := idType, frameType := frameType,
    dataLen := if dlen ≤ MAX_DLC then dlen else MAX_DLC,
    data := fun idx => dataBytes idx }

/-! ### TX path (`GD32CAN::write` and `commonCanTxIrqHandler`) -/

/-- The TX-side state: the software TX ring and the mailbox-empty (TME)
interrupt enable flag (`CAN_INT_TME` in `CAN_INTEN`). -/
structure TxState where
  txRing : ringBuffer_t
  tmeEnabled : Bool

/-- `GD32CAN::write` for an initialised controller.  If the TX ring is empty
the message is first offered directly to the hardware (`hwAccepts` is the
mailbox-availability oracle for that single `canMessageTransmit` call); the
fast path does not touch the TME enable.  Otherwise the message is appended to
the ring when the ring is allocated, and the TME interrupt is enabled only
after a successful append. -/
def writeTx (s : TxState) (message : message_t) (hwAccepts : Bool) :
    TxState × Bool :=
  if isRingBufferEmpty s.txRing && hwAccepts then (s, true)
  else if s.txRing.bufferNull then (s, false)
  else
    let p := addToRingBuffer s.txRing message
    if p.2 then ({ txRing := p.1, tmeEnabled := true }, true)
    else ({ s with txRing := p.1 }, false)

/-- `GD32CAN::write` including the `_isInitialized` guard. -/
def GD32CAN_write (isInitialized : Bool) (s : TxState) (message : message_t)
    (hwAccepts : Bool) : TxState × Bool :=
  if isInitialized then writeTx s message hwAccepts else (s, false)

/-- The drain loop of `commonCanTxIrqHandler`: while the ring is not empty,
peek the front message and offer it to the hardware; pop it on success, stop
on the first mailbox-full failure.  `hwAccepts k` is the outcome of the k-th
`canMessageTransmit` call of this invocation; the fuel (`ringBufferCount` at
entry) bounds the iterations, which suffices because every continuing
iteration removes one element. -/
def drainTxRing (hwAccepts : Nat → Bool) : Nat → Nat → ringBuffer_t → ringBuffer_t
  | _, 0, ring => ring
  | k, fuel + 1, ring =>
    if isRingBufferEmpty ring then ring
    else
      match readFromRingBuffer ring with
      | none => ring
      | some _ =>
        if hwAccepts k then drainTxRing hwAccepts (k + 1) fuel (removeFromRingBuffer ring)
        else ring

/-- `commonCanTxIrqHandler`: with an allocated ring, drain it into the
hardware mailboxes, then disable the TME interrupt iff the ring ended empty.
(The handler also clears the `CAN_TSTAT` mailbox-finished flags, which the
model does not track.)  With a null ring or buffer nothing but the flag
clearing happens. -/
def commonCanTxIrqHandler (s : TxState) (hwAccepts : Nat → Bool) : TxState :=
  if s.txRing.bufferNull then s
  else
    let r := drainTxRing hwAccepts 0 (ringBufferCount s.txRing) s.txRing
    if isRingBufferEmpty r then { txRing := r, tmeEnabled := false }
    else { s with txRing := r }

/-- One step of the TX path: an application `write` (with its direct-send
outcome) or a TX-interrupt-handler invocation (with its per-attempt mailbox
outcomes). -/
inductive TxStep : TxState → TxState → Prop
  | write (message : message_t) (hwAccepts : Bool) (s : TxState) :
      TxStep s (writeTx s message hwAccepts).1
  | txIrq (hwAccepts : Nat → Bool) (s : TxState) :
      TxStep s (commonCanTxIrqHandler s hwAccepts)

/-- The TX state right after `GD32CAN::initCanHw` succeeds: the ring as built
by `GD32CAN::init` (head = tail = 0) and the TME interrupt enabled, because
`initCanHw` ends with `setIrqState(IRQ_RX_FIFO_NE | IRQ_TX_MAILBOX_E, ENABLE)`. -/
def initTxState (buffer : Nat → message_t) (bufferNull : Bool) (size : Nat) :
    TxState :=
  { txRing := initRingBuffer buffer bufferNull size, tmeEnabled := true }

/-- The no-ISR-storm invariant claimed by the spec: whenever the TX ring is
empty, the TME interrupt enable flag is false. -/
def TxInv (s : TxState) : Prop :=
  isRingBufferEmpty s.txRing = true → s.tmeEnabled = false

instance (s : TxState) : Decidable (TxInv s) := by
  unfold TxInv; infer_instance

/-! ### RX path (`commonCanRxIrqHandler`, `GD32CAN::read`) -/

/-- The RX-side state: the software RX ring, the shared flag variable
`CAN::canXrxIrqEnabled` (`*_rxIrqEnabled`) and the hardware RX-FIFO0-not-empty
interrupt enable bit (`CAN_INT_RFNE0` in `CAN_INTEN`). -/
structure RxState where
  rxRing : ringBuffer_t
  rxIrqEnabledVar : Bool
  hwRxIrqEnabled : Bool

/-- `GD32CAN::setIrqState` for `IRQ_RX_FIFO_NE`: toggles the hardware enable
bit and mirrors it into the shared flag variable. -/
def setIrqStateRx (s : RxState) (enable : Bool) : RxState :=
  if enable then { s with hwRxIrqEnabled := true, rxIrqEnabledVar := true }
  else { s with hwRxIrqEnabled := false, rxIrqEnabledVar := false }

/-- `commonCanRxIrqHandler`: with an allocated ring, either decode the
incoming frame (`canMessageReceive` result, modelled as the `incoming`
parameter) into the ring when the ring is not full, or disable the RX
interrupt (recording it disabled in the shared flag) and drop the frame. -/
def commonCanRxIrqHandler (s : RxState) (incoming : message_t) : RxState :=
  if s.rxRing.bufferNull then s
  else if isRingBufferFull s.rxRing = false then
    { s with rxRing := (addToRingBuffer s.rxRing incoming).1 }
  else
    { s with hwRxIrqEnabled := false, rxIrqEnabledVar := false }

/-- `GD32CAN::read` for an initialised controller: bracket the pop by
disabling the RX interrupt (or, if it was already disabled by a full-ring
condition, marking the flag for re-enabling), peek, remove on success, and
unconditionally re-enable the RX interrupt. -/
def GD32CAN_read (s : RxState) : RxState × Option message_t :=
  let s1 := if s.rxIrqEnabledVar then setIrqStateRx s false
            else { s with rxIrqEnabledVar := true }
  let m := readFromRingBuffer s1.rxRing
  let s2 := match m with
    | some _ => { s1 with rxRing := removeFromRingBuffer s1.rxRing }
    | none => s1
  (setIrqStateRx s2 true, m)

/-- The RX state right after `begin` succeeds (empty allocated ring of the
given size, RX interrupt enabled by `initCanHw`) after delivering a list of
incoming frames through the RX interrupt handler, oldest first. -/
def rxScenarioState (size : Nat) (frames : List message_t) : RxState :=
  frames.foldl (fun s f => commonCanRxIrqHandler s f)
    { rxRing := initRingBuffer (fun _ => zeroMessage) false size,
      rxIrqEnabledVar := true, hwRxIrqEnabled := true }

/-! ### Push/pop sequences over the ring (harness for the ring claims) -/

/-- Push a list of messages in order with `addToRingBuffer`, stopping at the
first failure; returns the final ring and whether every push succeeded. -/
def pushList (ring : ringBuffer_t) : List message_t → ringBuffer_t × Bool
  | [] => (ring, true)
  | m :: rest =>
    let p := addToRingBuffer ring m
    if p.2 then pushList p.1 rest else (p.1, false)

/-- Perform n peek-and-pop pairs (`readFromRingBuffer` then
`removeFromRingBuffer`), collecting the peeked values in order. -/
def peekPopList : Nat → ringBuffer_t → List (Option message_t) × ringBuffer_t
  | 0, ring => ([], ring)
  | n + 1, ring =>
    let m := readFromRingBuffer ring
    let rest := peekPopList n (removeFromRingBuffer ring)
    (m :: rest.1, rest.2)

/-! ### Filter bank (`GD32CAN::setFilter` core overload, `setFilterState`) -/

/-- Device enumeration values (`CAN::Device::device_t`): the CAN0/CAN1 base
addresses (vendor `CAN0`/`CAN1` macros) and their pin-remap successors. -/
def CAN_0_DEFAULT : Nat := 0x40006400

/-- CAN0 on the PB8/PB9 remap. -/
def CAN_0_ALT1 : Nat := 0x40006401

/-- CAN1 on its default pins. -/
def CAN_1_DEFAULT : Nat := 0x40006800

/-- CAN1 on the PB5/PB6 remap. -/
def CAN_1_ALT1 : Nat := 0x40006801

/-- `CAN::Filter::MAX_BANK` in the connectivity-line configuration. -/
def MAX_BANK : Nat := 27

/-- `GD32CAN::getMaxFilterId`: the last filter bank this instance owns.  CAN0
devices own up to `can1StartFilterId - 1` once the split point is set,
otherwise up to `MAX_BANK`; every other device (CAN1 here) owns up to
`MAX_BANK`. -/
def getMaxFilterId (can1StartFilterId : Int) (device : Nat) : Int :=
  if device = CAN_0_DEFAULT ∨ device = CAN_0_ALT1 then
    if 0 ≤ can1StartFilterId then can1StartFilterId - 1 else (MAX_BANK : Int)
  else (MAX_BANK : Int)

/-- The controller members that the filter calls read and write. -/
structure CtrlFilterState where
  device : Nat
  isInstanceAllowed : Bool
  firstFilterId : Int
  filtersStates : Nat

/-- The per-bank configuration written by the vendor `can_filter_init`
(`can_filter_parameter_struct`). -/
structure FilterCfg where
  filter_number : Nat
  filter_mode : Nat
  filter_bits : Nat
  filter_fifo_number : Nat
  filter_enable : Bool
  filter_list_high : Nat
  filter_list_low : Nat
  filter_mask_high : Nat
  filter_mask_low : Nat

/-- The shared filter hardware: the per-bank configurations and the `CAN_FW`
filter-working enable bitmap. -/
structure FilterHw where
  configs : Nat → FilterCfg
  fw : Nat

/-- Modelled from the spec: the vendor firmware call `can_filter_init` (GD32
standard peripheral library, not part of this repository) programs the
addressed filter bank's mode/scale/list/mask configuration and sets or clears
its `CAN_FW` bit according to `filter_enable`. -/
def can_filter_init (hw : FilterHw) (cfg : FilterCfg) : FilterHw :=
  { configs := Function.update hw.configs cfg.filter_number cfg,
    fw := if cfg.filter_enable then hw.fw ||| 2 ^ cfg.filter_number
          else hw.fw &&& (U32 - 1 - 2 ^ cfg.filter_number) }

/-- `GD32CAN::isFilterAvailable`: the instance is allowed and `filterId` lies
in `[_firstFilterId, getMaxFilterId()]`. -/
def isFilterAvailable (c : CtrlFilterState) (can1StartFilterId : Int)
    (filterId : Nat) : Bool :=
  c.isInstanceAllowed && decide (c.firstFilterId ≤ (filterId : Int))
    && decide ((filterId : Int) ≤ getMaxFilterId can1StartFilterId c.device)

/-- The core `GD32CAN::setFilter` overload: when the bank is available, record
it in `_filtersStates`, fill the `can_filter_parameter_struct` and program the
hardware via `can_filter_init`; otherwise fail without touching anything. -/
def setFilter (c : CtrlFilterState) (can1StartFilterId : Int) (hw : FilterHw)
    (filterId frameId frameIdMask filterMode filterScale : Nat) (state : Bool) :
    CtrlFilterState × FilterHw × Bool :=
  if isFilterAvailable c can1StartFilterId filterId then
    let mask := 2 ^ filterId
    let cfg : FilterCfg :=
      { filter_number := filterId % 65536
        filter_mode := filterMode % 65536
        filter_bits := filterScale % 65536
        filter_fifo_number := 0
        filter_enable := state
        filter_list_high := (frameId >>> 16) % 65536
        filter_list_low := frameId % 65536
        filter_mask_high := (frameIdMask >>> 16) % 65536
        filter_mask_low := frameIdMask % 65536 }
    ({ c with filtersStates := c.filtersStates ||| mask }, can_filter_init hw cfg, true)
  else (c, hw, false)

/-- `GD32CAN::setFilterState`: when the bank is available, unlock the filter
registers, set the bank's `CAN_FW` bit (enable, and only if the bank was
allocated in `_filtersStates`) or clear it (disable), and relock; otherwise
fail without touching anything. -/
def setFilterState (c : CtrlFilterState) (can1StartFilterId : Int)
    (hw : FilterHw) (filterId : Nat) (state : Bool) : FilterHw × Bool :=
  if isFilterAvailable c can1StartFilterId filterId then
    let mask := 2 ^ filterId
    let fw :=
      if state then
        if c.filtersStates &&& mask ≠ 0 then hw.fw ||| mask else hw.fw
      else hw.fw &&& (U32 - 1 - mask)
    ({ hw with fw := fw }, true)
  else (hw, false)

/-! ### Instance ownership (`GD32CAN::init`, `GD32CAN::~GD32CAN`) -/

/-- `INSTANCES_MASK_CAN0`. -/
def INSTANCES_MASK_CAN0 : Nat := 1

/-- `INSTANCES_MASK_CAN1`. -/
def INSTANCES_MASK_CAN1 : Nat := 2

/-- `DEFAULT_CAN1_START_FILTER_ID`. -/
def DEFAULT_CAN1_START_FILTER_ID : Int := 14

/-- The process-wide shared state touched by construction and destruction:
the static ownership bitmap `GD32CAN::instances`, the static
`GD32CAN::can1StartFilterId`, and the per-instance ring pointers
(`CAN::canXTxRing` / `CAN::canXRxRing`, identified here by the id of the
object whose member rings they point to). -/
structure SharedGlobals where
  instances : Nat
  can1StartFilterId : Int
  can0TxRingOwner : Option Nat
  can0RxRingOwner : Option Nat
  can1TxRingOwner : Option Nat
  can1RxRingOwner : Option Nat

/-- The members of one controller object that the lifecycle claims read. -/
structure CtrlObj where
  objId : Nat
  device : Nat
  deviceBase : Nat
  instanceMask : Nat
  isInstanceAllowed : Bool
  isInitialized : Bool
  firstFilterId : Int

/-- `GD32CAN::init` (called from every constructor): allocate the rings,
point the per-instance globals at this object's rings (and for CAN1, reset
the global split point to the default), then claim the ownership bit —
`_isInstanceAllowed` is true iff the bit was clear, and the bit is set
unconditionally. -/
def GD32CAN_init (g : SharedGlobals) (objId device : Nat) :
    SharedGlobals × CtrlObj :=
  let deviceBase := device &&& 0xFFFFFF00
  if device = CAN_1_DEFAULT ∨ device = CAN_1_ALT1 then
    let g1 := { g with
      can1TxRingOwner := some objId
      can1RxRingOwner := some objId
      can1StartFilterId := DEFAULT_CAN1_START_FILTER_ID }
    let mask := INSTANCES_MASK_CAN1
    let allowed := g1.instances &&& mask == 0
    ({ g1 with instances := g1.instances ||| mask },
     { objId := objId, device := device, deviceBase := deviceBase,
       instanceMask := mask, isInstanceAllowed := allowed,
       isInitialized := false, firstFilterId := DEFAULT_CAN1_START_FILTER_ID })
  else
    let g1 := { g with
      can0TxRingOwner := some objId
      can0RxRingOwner := some objId }
    let mask := INSTANCES_MASK_CAN0
    let allowed := g1.instances &&& mask == 0
    ({ g1 with instances := g1.instances ||| mask },
     { objId := objId, device := device, deviceBase := deviceBase,
       instanceMask := mask, isInstanceAllowed := allowed,
       isInitialized := false, firstFilterId := 0 })

/-- `GD32CAN::~GD32CAN`: only an owning object acts — a CAN1 owner resets the
global split point, and the object releases its ownership bit
(`instances &= ~_instance_mask`, on the 8-bit bitmap).  A non-owning object's
destruction changes nothing.  (The owner's buffer deletion, transceiver-pin
detach and hardware/NVIC/GPIO deinit act outside the modelled state.) -/
def GD32CAN_destroy (g : SharedGlobals) (o : CtrlObj) : SharedGlobals :=
  if o.isInstanceAllowed then
    let g1 := if o.device = CAN_1_DEFAULT ∨ o.device = CAN_1_ALT1 then
        { g with can1StartFilterId := -1 }
      else g
    { g1 with instances := g1.instances &&& (255 - o.instanceMask) }
  else g

/-- `GD32CAN::begin`: only an allowed instance configures the hardware;
`beginOk` is the oracle for `canConfig`'s outcome, which becomes
`_isInitialized`. -/
def GD32CAN_begin (o : CtrlObj) (beginOk : Bool) : CtrlObj × Bool :=
  if o.isInstanceAllowed then ({ o with isInitialized := beginOk }, beginOk)
  else (o, false)

/-- `GD32CAN::read` including the `_isInitialized` guard. -/
def GD32CAN_read_guarded (isInitialized : Bool) (s : RxState) :
    RxState × Option message_t :=
  if isInitialized then GD32CAN_read s else (s, none)

/-! ### Claim-statement predicates -/

/-- The ring full/empty boundary scenario of the spec, for a ring of capacity
C starting empty: the C-1 pushes of `ms` all succeed, the ring then reports
full and a further push of `m` fails, and after one pop the ring reports
not-full and a push of `mNext` succeeds. -/
def claimC5 (C : Nat) (buf : Nat → message_t) (ms : List message_t)
    (m mNext : message_t) : Prop :=
  let full := (pushList (initRingBuffer buf false C) ms).1
  (pushList (initRingBuffer buf false C) ms).2 = true ∧
  isRingBufferFull full = true ∧
  (addToRingBuffer full m).2 = false ∧
  isRingBufferFull (removeFromRingBuffer full) = false ∧
  (addToRingBuffer (removeFromRingBuffer full) mNext).2 = true

/-- The RX overflow scenario of the spec, with the RX ring size exactly as
stated (capacity 2): after delivering three frames through the RX interrupt
handler, the first two are in the ring (oldest first), the interrupt has been
disabled and recorded disabled, and a `read()` pops the first frame and
re-enables the interrupt. -/
def claimC7 (f1 f2 f3 : message_t) : Prop :=
  let s3 := rxScenarioState 2 [f1, f2, f3]
  ringBufferCount s3.rxRing = 2 ∧
  readFromRingBuffer s3.rxRing = some f1 ∧
  s3.hwRxIrqEnabled = false ∧
  s3.rxIrqEnabledVar = false ∧
  (GD32CAN_read s3).2 = some f1 ∧
  ringBufferCount (GD32CAN_read s3).1.rxRing = 1 ∧
  (GD32CAN_read s3).1.hwRxIrqEnabled = true ∧
  (GD32CAN_read s3).1.rxIrqEnabledVar = true

/-- The ownership bit that `GD32CAN::init` claims for a device (the
`_instance_mask` chosen by its switch). -/
def deviceInstanceMask (device : Nat) : Nat :=
  if device = CAN_1_DEFAULT ∨ device = CAN_1_ALT1 then INSTANCES_MASK_CAN1
  else INSTANCES_MASK_CAN0

/-! ### Helper lemmas -/

theorem lor_land_self (x m : Nat) : (x ||| m) &&& m = m := by
  apply Nat.eq_of_testBit_eq
  intro i
  simp [Nat.testBit_or, Nat.testBit_and]
  cases m.testBit i <;> simp

theorem lor_lor_self (x m : Nat) : (x ||| m) ||| m = x ||| m := by
  rw [Nat.or_assoc, Nat.or_self]

theorem land_land_of_land_eq_zero (x a b : Nat) (h : a &&& b = 0) :
    (x &&& a) &&& b = 0 := by
  rw [Nat.and_assoc, h, Nat.and_zero]

theorem addToRingBuffer_fail_fst (ring : ringBuffer_t) (m : message_t)
    (h : (addToRingBuffer ring m).2 = false) : (addToRingBuffer ring m).1 = ring := by
  by_cases hc : (ring.head + 1) % ring.size = ring.tail
  · simp [addToRingBuffer, hc]
  · exfalso
    simp [addToRingBuffer, hc] at h

theorem addToRingBuffer_succ_not_empty (ring : ringBuffer_t) (m : message_t)
    (h : (addToRingBuffer ring m).2 = true) :
    isRingBufferEmpty (addToRingBuffer ring m).1 = false := by
  by_cases hc : (ring.head + 1) % ring.size = ring.tail
  · exfalso
    simp [addToRingBuffer, hc] at h
  · simp [addToRingBuffer, hc, isRingBufferEmpty, beq_eq_false_iff_ne]

theorem txInv_step_preserved (s s' : TxState) (hInv : TxInv s)
    (hstep : TxStep s s') : TxInv s' := by
  cases hstep with
  | write message hwAccepts =>
    unfold writeTx
    split
    · exact hInv
    · split
      · exact hInv
      · by_cases hp : (addToRingBuffer s.txRing message).2 = true
        · simp only [hp, if_true]
          intro hemp
          rw [addToRingBuffer_succ_not_empty s.txRing message hp] at hemp
          exact absurd hemp (by simp)
        · rw [Bool.not_eq_true] at hp
          simp only [hp, Bool.false_eq_true, if_false]
          rw [addToRingBuffer_fail_fst s.txRing message hp]
          exact hInv
  | txIrq hwAccepts =>
    simp only [commonCanTxIrqHandler]
    split
    · exact hInv
    · split
      · intro _
        rfl
      · rename_i hne
        intro hemp
        exact absurd hemp hne

theorem txInv_established_by_irq (s : TxState) (hwAccepts : Nat → Bool)
    (hnull : s.txRing.bufferNull = false) :
    TxInv (commonCanTxIrqHandler s hwAccepts) := by
  simp only [commonCanTxIrqHandler]
  split
  · rename_i hb
    rw [hnull] at hb
    exact absurd hb (by simp)
  · split
    · intro _
      rfl
    · rename_i hne
      intro hemp
      exact absurd hemp hne

/-! ### Claim C2: bit-timing solver at 8 MHz / 500 kbit -/

set_option maxRecDepth 100000 in
/-- Claim C2: for peripheral clock 8,000,000 Hz and target bit rate 500,000 bit/s,
`calculateCANBTValues` succeeds and its prescaler and segment values satisfy
clock / (prescaler * totalQuanta) = 500,000 exactly (totalQuanta =
1 + (bs1+1) + (bs2+1) = 16, prescaler = 1, bs1 = 12, bs2 = 1), and the sample
point (1 + bs1 + 1) / totalQuanta is within one quantum of 87.5 percent:
abs(8 * (1 + bs1 + 1) - 7 * totalQuanta) <= 8. -/
theorem c2_bit_timing_exact_500k :
    (calculateCANBTValues 8000000 500000).result = true ∧
    500000 * ((calculateCANBTValues 8000000 500000).baudpsc *
      (1 + ((calculateCANBTValues 8000000 500000).bs1 + 1) +
        ((calculateCANBTValues 8000000 500000).bs2 + 1))) = 8000000 ∧
    8000000 / ((calculateCANBTValues 8000000 500000).baudpsc *
      (1 + ((calculateCANBTValues 8000000 500000).bs1 + 1) +
        ((calculateCANBTValues 8000000 500000).bs2 + 1))) = 500000 ∧
    ((8 : Int) * (1 + ((calculateCANBTValues 8000000 500000).bs1 + 1)) -
      7 * (1 + ((calculateCANBTValues 8000000 500000).bs1 + 1) +
        ((calculateCANBTValues 8000000 500000).bs2 + 1))).natAbs ≤ 8 := by
  decide

/-! ### Claim C3: bit-timing solver failure cases -/

/-- Claim C3: for every clock frequency and target bit rate, the solver returns
false whenever the bit rate exceeds 1,000,000 bit/s, and returns false
whenever the time-quantum search (T between 8 and 18 around the nominal 16,
clock perturbed downward by at most 1000 Hz) finds no valid T; the embedding
is total, so neither case faults (the failure path's division by zero
evaluates to 0 as on the Cortex-M target).  In all other cases the returned
flag is the success of that same search. -/
theorem c3_solver_fails_safely (clockFreq baudrate : Nat) :
    (HW_MAX_BAUDRATE < baudrate →
      (calculateCANBTValues clockFreq baudrate).result = false) ∧
    (searchTimeQuanta clockFreq baudrate = none →
      (calculateCANBTValues clockFreq baudrate).result = false) ∧
    (calculateCANBTValues clockFreq baudrate).result =
      (decide (baudrate ≤ HW_MAX_BAUDRATE) &&
        (searchTimeQuanta clockFreq baudrate).isSome) := by
  refine ⟨?_, ?_, ?_⟩
  · intro h
    unfold calculateCANBTValues
    rw [if_neg (by omega)]
  · intro h
    unfold calculateCANBTValues
    split
    · simp [h]
    · rfl
  · unfold calculateCANBTValues
    split
    · rename_i hle
      simp [hle]
    · rename_i hgt
      simp [hgt]

set_option maxRecDepth 100000 in
/-- Witness for C3: at clock 8 MHz a 2 Mbit/s request exceeds the maximum and
fails; at clock 1500 Hz and bit rate 188 the search window is empty and the
solver fails. -/
theorem c3_solver_fails_safely_witness :
    (HW_MAX_BAUDRATE < 2000000 ∧
      (calculateCANBTValues 8000000 2000000).result = false) ∧
    (searchTimeQuanta 1500 188 = none ∧
      (calculateCANBTValues 1500 188).result = false) :=
  ⟨⟨by decide, (c3_solver_fails_safely 8000000 2000000).1 (by decide)⟩,
   ⟨by decide, (c3_solver_fails_safely 1500 188).2.1 (by decide)⟩⟩

/-! ### Claim C6: operations on an unallocated (capacity-0) ring -/

/-- Claim C6 (code bug): on the ring built by `initRingBuffer(ring, nullptr, 0)` the empty and
count observers report empty/0 and the peek reports failure, and the
driver-level `write()` fails thanks to its own null-buffer guard; but
`addToRingBuffer` itself computes `(head + 1) % size` with `size = 0` — a
modulus by zero, undefined behaviour in C, which under the target's (and
`Nat`'s) semantics makes the full test report not-full and the push return
true (then `memcpy` through the null pointer) instead of the false the spec
requires of an unallocated ring. -/
theorem c6_unallocated_ring_push_returns_true :
    (addToRingBuffer (initRingBuffer (fun _ => zeroMessage) true 0) zeroMessage).2
        = true ∧
    isRingBufferFull (initRingBuffer (fun _ => zeroMessage) true 0) = false ∧
    isRingBufferEmpty (initRingBuffer (fun _ => zeroMessage) true 0) = true ∧
    ringBufferCount (initRingBuffer (fun _ => zeroMessage) true 0) = 0 ∧
    readFromRingBuffer (initRingBuffer (fun _ => zeroMessage) true 0) = none ∧
    (GD32CAN_write true
      { txRing := initRingBuffer (fun _ => zeroMessage) true 0, tmeEnabled := false }
      zeroMessage false).2 = false := by
  decide

/-! ### Claim C10: data-length clamping at the codec boundary -/

/-- Claim C10: the transmit codec writes min(dataLen, 8) as the hardware data
length — an oversize dataLen is clamped, and acceptance equals the mailbox
availability outcome regardless of the message — and the receive codec
produces dataLen = min(rawDLENC, 8) <= 8 for every raw register value. -/
theorem c10_codec_dlc_clamped (message : message_t) (hwMailboxFree : Bool)
    (rfifomi rfifomp : Nat) (dataBytes : Fin 8 → Nat) :
    (canMessageTransmit message hwMailboxFree).1.tx_dlen
        = min message.dataLen MAX_DLC ∧
    (canMessageTransmit message hwMailboxFree).1.tx_dlen ≤ MAX_DLC ∧
    (canMessageTransmit message hwMailboxFree).2 = hwMailboxFree ∧
    (canMessageReceive rfifomi rfifomp dataBytes).dataLen
        = min (rfifomp &&& 15) MAX_DLC ∧
    (canMessageReceive rfifomi rfifomp dataBytes).dataLen ≤ MAX_DLC := by
  unfold canMessageTransmit canMessageReceive
  refine ⟨?_, ?_, rfl, ?_, ?_⟩ <;>
    simp only [MAX_DLC, Nat.min_def] <;> (repeat' split) <;> omega

/-! ### Claim C1: the no-ISR-storm invariant of the TX path -/

/-- Claim C1 counterexample: the invariant "whenever the TX ring is empty the TME
enable flag is false" does not hold over all reachable states of the TX path,
because `initCanHw` enables the TME interrupt while the fresh TX ring is
empty — the zero-step reachable post-init state already violates it; and with
the default txQueueSize = 0 (null TX buffer) a TX-interrupt invocation leaves
that violating state entirely unchanged, so it persists across steps. -/
theorem c1_counterexample :
    (¬ ∀ s : TxState,
        Relation.ReflTransGen TxStep (initTxState (fun _ => zeroMessage) false 4) s →
        TxInv s) ∧
    commonCanTxIrqHandler (initTxState (fun _ => zeroMessage) true 0) (fun _ => true)
        = initTxState (fun _ => zeroMessage) true 0 ∧
    isRingBufferEmpty (initTxState (fun _ => zeroMessage) true 0).txRing = true ∧
    (initTxState (fun _ => zeroMessage) true 0).tmeEnabled = true := by
  refine ⟨?_, rfl, rfl, rfl⟩
  intro h
  have h0 := h _ Relation.ReflTransGen.refl rfl
  simp [initTxState] at h0

/-- Claim C1 amended: the invariant is an inductive invariant of the TX path —
every `write` (with any direct-send outcome) and every TX-interrupt
invocation preserves "TX ring empty implies TME enable flag false" — and any
TX-interrupt invocation on an allocated TX ring establishes it; in
particular, after the ring goes from non-empty to empty (which only the
interrupt-handler drain does) the flag is false.  Only the initial post-init
state (TME enabled by `initCanHw` with the ring empty) and the
never-established null-buffer configuration fall outside it. -/
theorem c1_amended_tx_invariant :
    (∀ s s' : TxState, TxInv s → TxStep s s' → TxInv s') ∧
    (∀ (s : TxState) (hwAccepts : Nat → Bool), s.txRing.bufferNull = false →
      TxInv (commonCanTxIrqHandler s hwAccepts)) :=
  ⟨txInv_step_preserved, txInv_established_by_irq⟩

/-- Witness for C1 amended: the invariant holds in a concrete post-drain
state, is preserved by a concrete write step, and is established by a
concrete TX-interrupt invocation on an allocated ring. -/
theorem c1_amended_tx_invariant_witness :
    TxInv { txRing := initRingBuffer (fun _ => zeroMessage) false 4, tmeEnabled := false } ∧
    TxInv (writeTx
      { txRing := initRingBuffer (fun _ => zeroMessage) false 4, tmeEnabled := false }
      zeroMessage false).1 ∧
    (initTxState (fun _ => zeroMessage) false 4).txRing.bufferNull = false ∧
    TxInv (commonCanTxIrqHandler (initTxState (fun _ => zeroMessage) false 4)
            (fun _ => true)) :=
  ⟨by decide,
   c1_amended_tx_invariant.1 _ _ (by decide)
     (TxStep.write zeroMessage false _),
   rfl,
   c1_amended_tx_invariant.2 _ _ rfl⟩

/-! ### Ring-buffer sequence lemmas -/

theorem pushList_spec (ms : List message_t) (ring : ringBuffer_t)
    (htail : ring.tail = 0) (hbound : ring.head + ms.length < ring.size) :
    (pushList ring ms).2 = true ∧
    (pushList ring ms).1.size = ring.size ∧
    (pushList ring ms).1.tail = 0 ∧
    (pushList ring ms).1.bufferNull = ring.bufferNull ∧
    (pushList ring ms).1.head = ring.head + ms.length ∧
    (∀ j, j < ms.length →
      (pushList ring ms).1.buffer (ring.head + j) = ms.getD j zeroMessage) ∧
    (∀ i, i < ring.head → (pushList ring ms).1.buffer i = ring.buffer i) := by
  induction ms generalizing ring with
  | nil =>
    refine ⟨rfl, rfl, htail, rfl, by simp [pushList], ?_, fun i _ => rfl⟩
    intro j hj
    simp at hj
  | cons m rest ih =>
    have hsz : ring.head + 1 < ring.size := by
      simp only [List.length_cons] at hbound
      omega
    have hmod : (ring.head + 1) % ring.size = ring.head + 1 := Nat.mod_eq_of_lt hsz
    have hne : ¬ ((ring.head + 1) % ring.size = ring.tail) := by
      rw [hmod, htail]; omega
    have hadd : addToRingBuffer ring m =
        ({ ring with
            buffer := Function.update ring.buffer ring.head m
            head := ring.head + 1 }, true) := by
      unfold addToRingBuffer
      rw [if_neg hne, hmod]
    have hstep : pushList ring (m :: rest) =
        pushList ({ ring with
            buffer := Function.update ring.buffer ring.head m
            head := ring.head + 1 }) rest := by
      simp only [pushList, hadd]
      rw [if_pos trivial]
    rw [hstep]
    have hb' : ring.head + 1 + rest.length < ring.size := by
      simp only [List.length_cons] at hbound
      omega
    obtain ⟨hok, hsize, htl, hnull, hhead, hbuf, hpres⟩ :=
      ih ({ ring with
            buffer := Function.update ring.buffer ring.head m
            head := ring.head + 1 }) htail hb'
    refine ⟨hok, hsize, htl, hnull, ?_, ?_, ?_⟩
    · rw [hhead]
      simp only [List.length_cons]
      omega
    · intro j hj
      cases j with
      | zero =>
        have hp := hpres ring.head (by simp)
        simp only [Nat.add_zero, List.getD_cons_zero]
        rw [hp]
        simp [Function.update]
      | succ j' =>
        have hj' : j' < rest.length := by
          simp only [List.length_cons] at hj
          omega
        have hx := hbuf j' hj'
        have harith : ring.head + (j' + 1) = ring.head + 1 + j' := by omega
        rw [harith, hx]
        simp
    · intro i hi
      have hx := hpres i (show i < ring.head + 1 by omega)
      rw [hx]
      simp only []
      rw [Function.update_noteq (by omega)]

theorem peekPopList_spec (k : Nat) (ring : ringBuffer_t)
    (hbound : ring.tail + k ≤ ring.head) (hhead : ring.head < ring.size) :
    (peekPopList k ring).1 =
      (List.range k).map (fun j => some (ring.buffer (ring.tail + j))) := by
  induction k generalizing ring with
  | zero => simp [peekPopList]
  | succ n ih =>
    have hne : ring.head ≠ ring.tail := by omega
    have hempty : isRingBufferEmpty ring = false := by
      simp [isRingBufferEmpty]
      omega
    have hread : readFromRingBuffer ring = some (ring.buffer ring.tail) := by
      simp [readFromRingBuffer, hempty]
    have hmod : (ring.tail + 1) % ring.size = ring.tail + 1 :=
      Nat.mod_eq_of_lt (by omega)
    have hrem : removeFromRingBuffer ring = { ring with tail := ring.tail + 1 } := by
      unfold removeFromRingBuffer
      rw [hempty]
      simp [hmod]
    have hx := ih ({ ring with tail := ring.tail + 1 })
      (show ring.tail + 1 + n ≤ ring.head by omega) hhead
    simp only [peekPopList, hread, hrem, hx]
    rw [List.range_succ_eq_map, List.map_cons, List.map_map]
    congr 1
    rw [List.map_inj_left]
    intro a ha
    simp only [Function.comp_apply]
    have harith : ring.tail + 1 + a = ring.tail + (a + 1) := by omega
    rw [harith]

/-! ### Claim C4: FIFO order through the ring -/

/-- Claim C4: for every ring of capacity C > 0 starting empty and every sequence of
N < C messages, pushing all N succeeds, and N subsequent peek-and-pop pairs
return exactly the pushed messages in order. -/
theorem c4_push_pop_fifo (C : Nat) (buf : Nat → message_t) (ms : List message_t)
    (hC : 0 < C) (hlen : ms.length < C) :
    (pushList (initRingBuffer buf false C) ms).2 = true ∧
    (peekPopList ms.length (pushList (initRingBuffer buf false C) ms).1).1 =
      ms.map some := by
  obtain ⟨hok, hsize, htl, hnull, hhead, hbuf, hpres⟩ :=
    pushList_spec ms (initRingBuffer buf false C) rfl
      (by simpa [initRingBuffer] using hlen)
  refine ⟨hok, ?_⟩
  have hpop := peekPopList_spec ms.length (pushList (initRingBuffer buf false C) ms).1
    (by rw [htl, hhead]; simp [initRingBuffer])
    (by rw [hhead, hsize]; simpa [initRingBuffer] using hlen)
  rw [hpop]
  apply List.ext_getElem
  · simp
  · intro i h1 h2
    simp only [List.getElem_map, List.getElem_range, htl]
    have h2' : i < ms.length := by simpa using h2
    have hbi := hbuf i h2'
    have hh0 : (initRingBuffer buf false C).head = 0 := rfl
    rw [hh0, Nat.zero_add] at hbi
    rw [List.getD_eq_getElem ms zeroMessage h2'] at hbi
    rw [Nat.zero_add, hbi]

/-- Witness for C4: a concrete capacity-4 ring with two concrete messages. -/
theorem c4_push_pop_fifo_witness :
    0 < 4 ∧ ([zeroMessage, zeroMessage] : List message_t).length < 4 ∧
    ((pushList (initRingBuffer (fun _ => zeroMessage) false 4)
        [zeroMessage, zeroMessage]).2 = true ∧
      (peekPopList 2 (pushList (initRingBuffer (fun _ => zeroMessage) false 4)
        [zeroMessage, zeroMessage]).1).1 = [some zeroMessage, some zeroMessage]) :=
  ⟨by decide, by decide,
   c4_push_pop_fifo 4 (fun _ => zeroMessage) [zeroMessage, zeroMessage]
     (by decide) (by decide)⟩

/-! ### Claim C5: ring full/empty boundary -/

/-- Claim C5 counterexample: at capacity C = 1 the scenario fails — the empty ring
is already "full" (zero pushes succeed, matching "exactly C-1"), but popping
one element from that full ring is a no-op (the ring is simultaneously
empty), so `isRingBufferFull` still reports true afterwards and the
subsequent push still fails, contradicting the claim for every C > 0. -/
theorem c5_boundary_counterexample :
    ¬ claimC5 1 (fun _ => zeroMessage) [] zeroMessage zeroMessage := by
  unfold claimC5
  decide

/-- Claim C5 amended: for every ring of capacity C >= 2 starting empty, exactly
C-1 pushes succeed, the ring then reports full and the C-th push fails, and
after popping one element the ring reports not-full and a subsequent push
succeeds.  (At C = 1 the "full" ring is also empty, the pop is a no-op, and
the post-pop push still fails.) -/
theorem c5_boundary_amended (C : Nat) (buf : Nat → message_t)
    (ms : List message_t) (m mNext : message_t) (hC : 2 ≤ C)
    (hlen : ms.length = C - 1) : claimC5 C buf ms m mNext := by
  obtain ⟨hok, hsize, htl, hnull, hhead, hbuf, hpres⟩ :=
    pushList_spec ms (initRingBuffer buf false C) rfl
      (by simp only [initRingBuffer]; omega)
  have hsizeC : (pushList (initRingBuffer buf false C) ms).1.size = C := hsize
  have hheadC : (pushList (initRingBuffer buf false C) ms).1.head = C - 1 := by
    have h0 : (initRingBuffer buf false C).head = 0 := rfl
    rw [hhead, hlen, h0, Nat.zero_add]
  have hfullmod : ((pushList (initRingBuffer buf false C) ms).1.head + 1) %
      (pushList (initRingBuffer buf false C) ms).1.size = 0 := by
    rw [hheadC, hsizeC]
    have hx : C - 1 + 1 = C := by omega
    rw [hx, Nat.mod_self]
  refine ⟨hok, ?_, ?_, ?_, ?_⟩
  · simp [isRingBufferFull, hfullmod, htl]
  · simp [addToRingBuffer, hfullmod, htl]
  · have hemp : isRingBufferEmpty (pushList (initRingBuffer buf false C) ms).1
        = false := by
      simp [isRingBufferEmpty, hheadC, htl, beq_eq_false_iff_ne]
      omega
    have hrem : removeFromRingBuffer (pushList (initRingBuffer buf false C) ms).1
        = { (pushList (initRingBuffer buf false C) ms).1 with
            tail := 1 % (pushList (initRingBuffer buf false C) ms).1.size } := by
      unfold removeFromRingBuffer
      rw [hemp]
      simp [htl]
    rw [hrem]
    have hone : 1 % (pushList (initRingBuffer buf false C) ms).1.size = 1 := by
      rw [hsizeC]; exact Nat.mod_eq_of_lt (by omega)
    simp [isRingBufferFull, hfullmod, hone, beq_eq_false_iff_ne]
  · have hemp : isRingBufferEmpty (pushList (initRingBuffer buf false C) ms).1
        = false := by
      simp [isRingBufferEmpty, hheadC, htl, beq_eq_false_iff_ne]
      omega
    have hrem : removeFromRingBuffer (pushList (initRingBuffer buf false C) ms).1
        = { (pushList (initRingBuffer buf false C) ms).1 with
            tail := 1 % (pushList (initRingBuffer buf false C) ms).1.size } := by
      unfold removeFromRingBuffer
      rw [hemp]
      simp [htl]
    rw [hrem]
    have hone : 1 % (pushList (initRingBuffer buf false C) ms).1.size = 1 := by
      rw [hsizeC]; exact Nat.mod_eq_of_lt (by omega)
    simp [addToRingBuffer, hfullmod, hone]

/-- Witness for C5 amended: the concrete capacity-3 boundary scenario. -/
theorem c5_boundary_amended_witness :
    2 ≤ 3 ∧ ([zeroMessage, zeroMessage] : List message_t).length = 3 - 1 ∧
    claimC5 3 (fun _ => zeroMessage) [zeroMessage, zeroMessage]
      zeroMessage zeroMessage :=
  ⟨by decide, by decide,
   c5_boundary_amended 3 (fun _ => zeroMessage) [zeroMessage, zeroMessage]
     zeroMessage zeroMessage (by decide) (by decide)⟩

/-! ### Claim C7: RX overflow scenario -/

/-- Claim C7 counterexample: with an RX ring of capacity 2 as the claim states,
the second interrupt invocation already finds the ring full ((head+1) % 2 =
tail with one element stored), so only the first of the three frames
populates the ring — the ring holds 1 frame, not 2, and the interrupt is
disabled at the second frame, not the third. -/
theorem c7_rx_overflow_counterexample :
    ¬ claimC7 zeroMessage zeroMessage zeroMessage ∧
    ringBufferCount (rxScenarioState 2 [zeroMessage, zeroMessage]).rxRing = 1 ∧
    (rxScenarioState 2 [zeroMessage, zeroMessage]).rxIrqEnabledVar = false := by
  refine ⟨?_, by decide, by decide⟩
  unfold claimC7
  decide

/-- Claim C7 amended: with an RX ring of size 3 (which buffers 2 frames, one slot
being reserved), delivering three frames through the RX interrupt handler
stores the first two in order, the third invocation finds the ring full,
disables the RX-FIFO-not-empty interrupt recording it disabled, and drops
the frame; a subsequent read() returns the first frame, removes it from the
ring, and re-enables the interrupt. -/
theorem c7_rx_overflow_amended (f1 f2 f3 : message_t) :
    ringBufferCount (rxScenarioState 3 [f1, f2, f3]).rxRing = 2 ∧
    readFromRingBuffer (rxScenarioState 3 [f1, f2, f3]).rxRing = some f1 ∧
    (rxScenarioState 3 [f1, f2, f3]).hwRxIrqEnabled = false ∧
    (rxScenarioState 3 [f1, f2, f3]).rxIrqEnabledVar = false ∧
    (GD32CAN_read (rxScenarioState 3 [f1, f2, f3])).2 = some f1 ∧
    ringBufferCount (GD32CAN_read (rxScenarioState 3 [f1, f2, f3])).1.rxRing = 1 ∧
    readFromRingBuffer (GD32CAN_read (rxScenarioState 3 [f1, f2, f3])).1.rxRing
        = some f2 ∧
    (GD32CAN_read (rxScenarioState 3 [f1, f2, f3])).1.hwRxIrqEnabled = true ∧
    (GD32CAN_read (rxScenarioState 3 [f1, f2, f3])).1.rxIrqEnabledVar = true := by
  have hs : rxScenarioState 3 [f1, f2, f3] =
      { rxRing :=
          { head := 2, tail := 0, size := 3, bufferNull := false,
            buffer := Function.update (Function.update (fun _ => zeroMessage) 0 f1) 1 f2 },
        rxIrqEnabledVar := false, hwRxIrqEnabled := false } := by
    simp [rxScenarioState, commonCanRxIrqHandler, addToRingBuffer,
      isRingBufferFull, initRingBuffer]
  rw [hs]
  refine ⟨by simp [ringBufferCount], ?_, rfl, rfl, ?_, ?_, ?_, rfl, rfl⟩
  · simp [readFromRingBuffer, isRingBufferEmpty, Function.update]
  · simp [GD32CAN_read, setIrqStateRx, readFromRingBuffer, isRingBufferEmpty,
      Function.update]
  · simp [GD32CAN_read, setIrqStateRx, readFromRingBuffer, isRingBufferEmpty,
      removeFromRingBuffer, ringBufferCount, Function.update]
  · simp [GD32CAN_read, setIrqStateRx, readFromRingBuffer, isRingBufferEmpty,
      removeFromRingBuffer, Function.update]

/-! ### Claim C8: filter calls outside the owned range -/

/-- Claim C8: for every controller state and every filter bank index outside the
instance's owned range [firstFilterId, getMaxFilterId()], both `setFilter`
(allocation) and `setFilterState` (enable/disable) return false and leave the
controller's allocation bitmap and the hardware filter configuration and
enable bitmap completely unchanged. -/
theorem c8_filter_out_of_range (c : CtrlFilterState) (can1Start : Int)
    (hw : FilterHw) (filterId frameId frameIdMask filterMode filterScale : Nat)
    (state enState : Bool)
    (hout : (filterId : Int) < c.firstFilterId ∨
      getMaxFilterId can1Start c.device < (filterId : Int)) :
    setFilter c can1Start hw filterId frameId frameIdMask filterMode
        filterScale state = (c, hw, false) ∧
    setFilterState c can1Start hw filterId enState = (hw, false) := by
  have havail : isFilterAvailable c can1Start filterId = false := by
    unfold isFilterAvailable
    rcases hout with h | h
    · have hd : decide (c.firstFilterId ≤ (filterId : Int)) = false :=
        decide_eq_false (by omega)
      rw [hd]
      simp
    · have hd : decide ((filterId : Int) ≤ getMaxFilterId can1Start c.device)
          = false := decide_eq_false (by omega)
      rw [hd]
      simp
  constructor
  · simp [setFilter, havail]
  · simp [setFilterState, havail]

/-- Witness for C8: bank 28 lies above CAN1's last owned bank (27), so both
calls fail and leave the state untouched. -/
theorem c8_filter_out_of_range_witness :
    ((28 : Int) < 0 ∨
      getMaxFilterId 14
        ({ device := CAN_1_DEFAULT, isInstanceAllowed := true,
           firstFilterId := 0, filtersStates := 0 } : CtrlFilterState).device
        < (28 : Int)) ∧
    (setFilter
        { device := CAN_1_DEFAULT, isInstanceAllowed := true,
          firstFilterId := 0, filtersStates := 0 } 14
        { configs := fun _ =>
            { filter_number := 0, filter_mode := 0, filter_bits := 0,
              filter_fifo_number := 0, filter_enable := false,
              filter_list_high := 0, filter_list_low := 0,
              filter_mask_high := 0, filter_mask_low := 0 },
          fw := 0 } 28 291 0 0 0 true =
      ({ device := CAN_1_DEFAULT, isInstanceAllowed := true,
         firstFilterId := 0, filtersStates := 0 },
       { configs := fun _ =>
           { filter_number := 0, filter_mode := 0, filter_bits := 0,
             filter_fifo_number := 0, filter_enable := false,
             filter_list_high := 0, filter_list_low := 0,
             filter_mask_high := 0, filter_mask_low := 0 },
         fw := 0 }, false) ∧
     setFilterState
        { device := CAN_1_DEFAULT, isInstanceAllowed := true,
          firstFilterId := 0, filtersStates := 0 } 14
        { configs := fun _ =>
            { filter_number := 0, filter_mode := 0, filter_bits := 0,
              filter_fifo_number := 0, filter_enable := false,
              filter_list_high := 0, filter_list_low := 0,
              filter_mask_high := 0, filter_mask_low := 0 },
          fw := 0 } 28 false =
      ({ configs := fun _ =>
           { filter_number := 0, filter_mode := 0, filter_bits := 0,
             filter_fifo_number := 0, filter_enable := false,
             filter_list_high := 0, filter_list_low := 0,
             filter_mask_high := 0, filter_mask_low := 0 },
         fw := 0 }, false)) :=
  ⟨Or.inr (by decide),
   c8_filter_out_of_range _ 14 _ 28 291 0 0 0 true false (Or.inr (by decide))⟩

/-! ### Claim C9: instance ownership lifecycle -/

theorem GD32CAN_init_spec (g : SharedGlobals) (objId device : Nat) :
    (GD32CAN_init g objId device).1.instances =
      g.instances ||| deviceInstanceMask device ∧
    (GD32CAN_init g objId device).2.instanceMask = deviceInstanceMask device ∧
    (GD32CAN_init g objId device).2.isInstanceAllowed =
      (g.instances &&& deviceInstanceMask device == 0) ∧
    (GD32CAN_init g objId device).2.isInitialized = false := by
  unfold GD32CAN_init deviceInstanceMask
  split <;> rename_i h <;> simp [h]

theorem deviceInstanceMask_ne_zero (device : Nat) : deviceInstanceMask device ≠ 0 := by
  unfold deviceInstanceMask
  split <;> decide

theorem deviceInstanceMask_complement (device : Nat) :
    (255 - deviceInstanceMask device) &&& deviceInstanceMask device = 0 := by
  unfold deviceInstanceMask
  split <;> decide

theorem GD32CAN_destroy_owner_instances (g : SharedGlobals) (o : CtrlObj)
    (hallowed : o.isInstanceAllowed = true) :
    (GD32CAN_destroy g o).instances = g.instances &&& (255 - o.instanceMask) := by
  unfold GD32CAN_destroy
  rw [if_pos hallowed]
  split <;> rfl

theorem GD32CAN_destroy_not_owner (g : SharedGlobals) (o : CtrlObj)
    (h : o.isInstanceAllowed = false) : GD32CAN_destroy g o = g := by
  simp [GD32CAN_destroy, h]

/-- Claim C9 counterexample: the second (denied) construction does disturb the
shared per-instance configuration, contrary to the claim — constructing a
second CAN0 controller while the first owner is live redirects the global
`CAN::can0RxRing` pointer from the first object's ring to the second's
(before the ownership check runs), and a denied second CAN1 construction
also resets the shared `can1StartFilterId` split point from its owner-chosen
value back to the default. -/
theorem c9_ownership_counterexample :
    let g0 : SharedGlobals :=
      { instances := 0, can1StartFilterId := -1,
        can0TxRingOwner := none, can0RxRingOwner := none,
        can1TxRingOwner := none, can1RxRingOwner := none }
    let p1 := GD32CAN_init g0 1 CAN_0_DEFAULT
    let p2 := GD32CAN_init p1.1 2 CAN_0_DEFAULT
    let gA : SharedGlobals :=
      { instances := INSTANCES_MASK_CAN1, can1StartFilterId := 20,
        can0TxRingOwner := none, can0RxRingOwner := none,
        can1TxRingOwner := some 7, can1RxRingOwner := some 7 }
    let p3 := GD32CAN_init gA 3 CAN_1_DEFAULT
    p1.2.isInstanceAllowed = true ∧
    p2.2.isInstanceAllowed = false ∧
    p1.1.can0RxRingOwner = some 1 ∧
    p2.1.can0RxRingOwner = some 2 ∧
    ¬ p2.1.can0RxRingOwner = p1.1.can0RxRingOwner ∧
    p3.2.isInstanceAllowed = false ∧
    p3.1.can1StartFilterId = 14 ∧
    ¬ p3.1.can1StartFilterId = gA.can1StartFilterId ∧
    p3.1.can1RxRingOwner = some 3 := by
  decide

/-- Claim C9 amended: the ownership bitmap itself works as claimed — construction
sets the instance's bit, a second construction for the same device while the
first owner is live is denied (its allowed flag is false), leaves the
ownership bitmap unchanged, its `begin` and `write` fail, and its
destruction is a complete no-op on the shared state, while the owner's
destruction clears the bit — but (per the counterexample) the denied
construction is not free of side effects on the shared ring pointers and
CAN1 split point. -/
theorem c9_ownership_amended (g : SharedGlobals) (idA idB device : Nat)
    (beginOk hwAccepts : Bool) (message : message_t) (s : TxState) (rxs : RxState)
    (hfree : g.instances &&& deviceInstanceMask device = 0) :
    (GD32CAN_init g idA device).2.isInstanceAllowed = true ∧
    (GD32CAN_init g idA device).1.instances &&& deviceInstanceMask device ≠ 0 ∧
    (GD32CAN_init (GD32CAN_init g idA device).1 idB device).2.isInstanceAllowed
        = false ∧
    (GD32CAN_init (GD32CAN_init g idA device).1 idB device).1.instances =
      (GD32CAN_init g idA device).1.instances ∧
    (GD32CAN_begin (GD32CAN_init (GD32CAN_init g idA device).1 idB device).2
        beginOk).2 = false ∧
    (GD32CAN_begin (GD32CAN_init (GD32CAN_init g idA device).1 idB device).2
        beginOk).1.isInitialized = false ∧
    (GD32CAN_write
        (GD32CAN_init (GD32CAN_init g idA device).1 idB device).2.isInitialized
        s message hwAccepts).2 = false ∧
    (GD32CAN_read_guarded
        (GD32CAN_init (GD32CAN_init g idA device).1 idB device).2.isInitialized
        rxs).2 = none ∧
    GD32CAN_destroy (GD32CAN_init (GD32CAN_init g idA device).1 idB device).1
        (GD32CAN_init (GD32CAN_init g idA device).1 idB device).2 =
      (GD32CAN_init (GD32CAN_init g idA device).1 idB device).1 ∧
    (GD32CAN_destroy (GD32CAN_init (GD32CAN_init g idA device).1 idB device).1
        (GD32CAN_init g idA device).2).instances &&& deviceInstanceMask device
        = 0 := by
  obtain ⟨hAg, hAmask, hAallow, hAinit⟩ := GD32CAN_init_spec g idA device
  obtain ⟨hBg, hBmask, hBallow, hBinit⟩ :=
    GD32CAN_init_spec (GD32CAN_init g idA device).1 idB device
  have hM : deviceInstanceMask device ≠ 0 := deviceInstanceMask_ne_zero device
  have hA : (GD32CAN_init g idA device).2.isInstanceAllowed = true := by
    rw [hAallow, hfree]
    rfl
  have hB : (GD32CAN_init (GD32CAN_init g idA device).1 idB device).2.isInstanceAllowed
      = false := by
    rw [hBallow, hAg, lor_land_self]
    exact beq_eq_false_iff_ne.mpr hM
  refine ⟨hA, ?_, hB, ?_, ?_, ?_, ?_, ?_, ?_, ?_⟩
  · rw [hAg, lor_land_self]
    exact hM
  · rw [hBg, hAg, lor_lor_self]
  · simp [GD32CAN_begin, hB]
  · simp [GD32CAN_begin, hB, hBinit]
  · simp [GD32CAN_write, hBinit]
  · simp [GD32CAN_read_guarded, hBinit]
  · exact GD32CAN_destroy_not_owner _ _ hB
  · rw [GD32CAN_destroy_owner_instances _ _ hA, hAmask, hBg, hAg, lor_lor_self]
    exact land_land_of_land_eq_zero _ _ _ (deviceInstanceMask_complement device)

/-- Witness for C9 amended: a fresh global state and two CAN0 constructions. -/
theorem c9_ownership_amended_witness :
    ({ instances := 0, can1StartFilterId := -1, can0TxRingOwner := none,
       can0RxRingOwner := none, can1TxRingOwner := none,
       can1RxRingOwner := none } : SharedGlobals).instances &&&
      deviceInstanceMask CAN_0_DEFAULT = 0 ∧
    (GD32CAN_init
      { instances := 0, can1StartFilterId := -1, can0TxRingOwner := none,
        can0RxRingOwner := none, can1TxRingOwner := none,
        can1RxRingOwner := none } 1 CAN_0_DEFAULT).2.isInstanceAllowed = true ∧
    (GD32CAN_init (GD32CAN_init
      { instances := 0, can1StartFilterId := -1, can0TxRingOwner := none,
        can0RxRingOwner := none, can1TxRingOwner := none,
        can1RxRingOwner := none } 1 CAN_0_DEFAULT).1 2
        CAN_0_DEFAULT).2.isInstanceAllowed = false := by
  refine ⟨by decide, ?_, ?_⟩
  · exact (c9_ownership_amended _ 1 2 CAN_0_DEFAULT false false zeroMessage
      { txRing := initRingBuffer (fun _ => zeroMessage) false 4, tmeEnabled := false }
      { rxRing := initRingBuffer (fun _ => zeroMessage) false 4,
        rxIrqEnabledVar := true, hwRxIrqEnabled := true }
      (by decide)).1
  · exact (c9_ownership_amended _ 1 2 CAN_0_DEFAULT false false zeroMessage
      { txRing := initRingBuffer (fun _ => zeroMessage) false 4, tmeEnabled := false }
      { rxRing := initRingBuffer (fun _ => zeroMessage) false 4,
        rxIrqEnabledVar := true, hwRxIrqEnabled := true }
      (by decide)).2.2.1
